import Mathlib

/-!
Verification of the soccer statistics aggregation engine (`queries.py`,
`data_loader.py`) against its natural-language specification.

The MongoDB collections are embedded as Lean lists of records, and each
aggregation pipeline is translated stage by stage into a pure function.
Goal counts are nullable in the store, so they are modelled as
`Option Int`; the store compares a null below every number and two nulls
as equal, which the `mLt`/`mEq`/`mGt` helpers reproduce.  Sorting is
modelled with `List.insertionSort`, which is stable in the same way as
the Python `list.sort` used by the standings builder.  A non-positive
argument to the result-limiting stage is rejected by the store, which
`applyLimit` models as an `invalidArgument` error.
-/

namespace Soccer

/-- Store comparison of two nullable integers: a null sorts strictly below
every number. -/
def mLt : Option Int → Option Int → Bool
  | none, none => false
  | none, some _ => true
  | some _, none => false
  | some a, some b => decide (a < b)

/-- Store equality of two nullable integers: two nulls compare equal. -/
def mEq : Option Int → Option Int → Bool
  | none, none => true
  | some a, some b => a == b
  | _, _ => false

/-- Store strict greater-than on nullable integers. -/
def mGt (x y : Option Int) : Bool := mLt y x

/-- Match outcome as derived by the loader. -/
inductive MatchResult where
  | home_win
  | away_win
  | draw
  | unknown
deriving DecidableEq

/-- The Result Classifier from the loader: unknown if either goal count is
absent, otherwise a direct comparison. -/
def determine_result : Option Int → Option Int → MatchResult
  | none, _ => .unknown
  | _, none => .unknown
  | some h, some a =>
    if h > a then .home_win else if h < a then .away_win else .draw

/-- One match document as stored by the loader (the fields the queries
read). -/
structure Match where
  league_name : String
  season : String
  home_team_name : String
  away_team_name : String
  home_team_goal : Option Int
  away_team_goal : Option Int
deriving DecidableEq

/-- One player identity document. -/
structure Player where
  player_api_id : Int
  player_name : String
  height : Option Int
  weight : Option Int
deriving DecidableEq

/-- One player attribute snapshot document (the fields the queries read). -/
structure PlayerAttribute where
  player_api_id : Int
  date : Option Int
  overall_rating : Option Int
  potential : Option Int
  preferred_foot : Option String
  finishing : Option Int
  short_passing : Option Int
  dribbling : Option Int
  sprint_speed : Option Int
  stamina : Option Int
  strength : Option Int
deriving DecidableEq

/-- The fact store: the three collections the queries aggregate over. -/
structure DB where
  matches_ : List Match
  players : List Player
  player_attributes : List PlayerAttribute
deriving DecidableEq

/-- Filter of query 2: same season and the queried team on either side. -/
def matchInvolves (team season : String) (m : Match) : Bool :=
  m.season == season && (m.home_team_name == team || m.away_team_name == team)

/-- Win condition of queries 2 and 9 for one team. -/
def winCond (team : String) (m : Match) : Bool :=
  (m.home_team_name == team && mGt m.home_team_goal m.away_team_goal) ||
    (m.away_team_name == team && mGt m.away_team_goal m.home_team_goal)

/-- Loss condition of query 2 for one team. -/
def lossCond (team : String) (m : Match) : Bool :=
  (m.home_team_name == team && mLt m.home_team_goal m.away_team_goal) ||
    (m.away_team_name == team && mLt m.away_team_goal m.home_team_goal)

/-- Draw condition of queries 2 and 9: the two stored goal fields compare
equal, with no team check and no consultation of the derived result. -/
def drawCond (m : Match) : Bool :=
  mEq m.home_team_goal m.away_team_goal

/-- Goals credited to the queried team in one match; the store's sum
treats a null field as contributing nothing. -/
def goalsFor (team : String) (m : Match) : Int :=
  (if m.home_team_name == team then m.home_team_goal else m.away_team_goal).getD 0

/-- Goals conceded by the queried team in one match. -/
def goalsAgainst (team : String) (m : Match) : Int :=
  (if m.home_team_name == team then m.away_team_goal else m.home_team_goal).getD 0

/-- Output record of query 2 and row type of query 8. -/
structure TeamSeasonRecord where
  team : String
  season : String
  matches_played : Nat
  wins : Nat
  draws : Nat
  losses : Nat
  goals_scored : Int
  goals_conceded : Int
  goal_difference : Int
  points : Int
  position : Option Nat
deriving DecidableEq

/-- Query 2: aggregate one team's record for one season.  The group stage
over an empty input emits nothing, so the query returns `none` when no
match qualifies. -/
def query_2_team_season_record (db : DB) (team season : String) :
    Option TeamSeasonRecord :=
  let q := db.matches_.filter (matchInvolves team season)
  if q.isEmpty then none else
  let wins := q.countP (winCond team)
  let draws := q.countP drawCond
  let losses := q.countP (lossCond team)
  let gs := (q.map (goalsFor team)).sum
  let gc := (q.map (goalsAgainst team)).sum
  some { team := team, season := season, matches_played := q.length,
         wins := wins, draws := draws, losses := losses,
         goals_scored := gs, goals_conceded := gc,
         goal_difference := gs - gc,
         points := 3 * (wins : Int) + (draws : Int),
         position := none }

/-- Output record of query 9. -/
structure HeadToHeadRecord where
  team1 : String
  team2 : String
  total_matches : Nat
  team1_wins : Nat
  team2_wins : Nat
  draws : Nat
deriving DecidableEq

/-- Filter of query 9: the two named teams on opposite sides, in either
arrangement. -/
def h2hFilter (t1 t2 : String) (m : Match) : Bool :=
  (m.home_team_name == t1 && m.away_team_name == t2) ||
    (m.home_team_name == t2 && m.away_team_name == t1)

/-- Query 9: head-to-head record between two named teams; `none` when no
match qualifies. -/
def query_9_head_to_head (db : DB) (t1 t2 : String) :
    Option HeadToHeadRecord :=
  let q := db.matches_.filter (h2hFilter t1 t2)
  if q.isEmpty then none else
  some { team1 := t1, team2 := t2, total_matches := q.length,
         team1_wins := q.countP (winCond t1),
         team2_wins := q.countP (winCond t2),
         draws := q.countP drawCond }

/-- Distinct values in first-occurrence order, as the store's distinct
and group stages are modelled. -/
def distinctFO [DecidableEq α] (l : List α) : List α :=
  l.foldl (fun acc a => if a ∈ acc then acc else acc ++ [a]) []

/-- Sort relation of query 8: descending lexicographic on
(points, goal difference). -/
def stRel (x y : TeamSeasonRecord) : Prop :=
  y.points < x.points ∨ (y.points = x.points ∧ y.goal_difference ≤ x.goal_difference)

instance : DecidableRel stRel := fun x y =>
  inferInstanceAs (Decidable (y.points < x.points ∨
    (y.points = x.points ∧ y.goal_difference ≤ x.goal_difference)))

instance : IsTotal TeamSeasonRecord stRel :=
  ⟨by intro a b; unfold stRel; omega⟩

instance : IsTrans TeamSeasonRecord stRel :=
  ⟨by intro a b c hab hbc; unfold stRel at hab hbc ⊢; omega⟩

/-- Replace the position field of a record. -/
def setPos (r : TeamSeasonRecord) (p : Option Nat) : TeamSeasonRecord :=
  { r with position := p }

/-- The position-assignment loop of query 8: 1-based consecutive indices
in sorted order. -/
def assignPositions : Nat → List TeamSeasonRecord → List TeamSeasonRecord
  | _, [] => []
  | i, r :: rs => setPos r (some i) :: assignPositions (i + 1) rs

/-- Query 8: league standings.  The team set is taken from the distinct
home-side names of the filtered matches, each team's record comes from
query 2 (which filters by season only), the records are sorted stably by
descending (points, goal difference), and positions are assigned
1-based. -/
def query_8_league_standings (db : DB) (league season : String) :
    List TeamSeasonRecord :=
  let teams := distinctFO
    ((db.matches_.filter
        (fun m => m.league_name == league && m.season == season)).map
      (fun m => m.home_team_name))
  let base := teams.filterMap (fun t => query_2_team_season_record db t season)
  assignPositions 1 (List.insertionSort stRel base)

/-- Errors surfaced by an aggregation call. -/
inductive QueryError where
  | invalidArgument
deriving DecidableEq

instance {ε α : Type} [DecidableEq ε] [DecidableEq α] :
    DecidableEq (Except ε α) := fun x y =>
  match x, y with
  | .error a, .error b =>
    if h : a = b then .isTrue (by rw [h])
    else .isFalse (by intro he; cases he; exact h rfl)
  | .ok a, .ok b =>
    if h : a = b then .isTrue (by rw [h])
    else .isFalse (by intro he; cases he; exact h rfl)
  | .error _, .ok _ => .isFalse (by intro he; cases he)
  | .ok _, .error _ => .isFalse (by intro he; cases he)

/-- The store's result-count limiting stage: MongoDB rejects a
non-positive limit argument, so the whole aggregation fails; otherwise
the output is truncated. -/
def applyLimit (limit : Int) (l : List α) : Except QueryError (List α) :=
  if limit ≤ 0 then .error .invalidArgument else .ok (l.take limit.toNat)

/-- Output row of query 6. -/
structure ScorelineTally where
  scoreline : Option String
  home_goals : Option Int
  away_goals : Option Int
  occurrences : Nat
deriving DecidableEq

/-- Store rendering of a nullable integer as a string; a null stays
null. -/
def mToString : Option Int → Option String
  | none => none
  | some n => some (toString n)

/-- Store string concatenation: null if any part is null. -/
def mConcat3 : Option String → Option String → Option String → Option String
  | some x, some y, some z => some (x ++ y ++ z)
  | _, _, _ => none

/-- The scoreline string built by query 6: home goals, the separator
" - ", away goals. -/
def scorelineStr (h a : Option Int) : Option String :=
  mConcat3 (mToString h) (some " - ") (mToString a)

/-- Sort relation of query 6: descending occurrence count. -/
def occRel (x y : ScorelineTally) : Prop := y.occurrences ≤ x.occurrences

instance : DecidableRel occRel := fun x y =>
  inferInstanceAs (Decidable (y.occurrences ≤ x.occurrences))

/-- Query 6: group all matches by the exact (home goals, away goals)
pair, count, render, sort descending by count, truncate. -/
def query_6_common_scorelines (db : DB) (limit : Int) :
    Except QueryError (List ScorelineTally) :=
  let pairs := db.matches_.map (fun m => (m.home_team_goal, m.away_team_goal))
  let grouped := (distinctFO pairs).map (fun p =>
    { scoreline := scorelineStr p.1 p.2, home_goals := p.1,
      away_goals := p.2, occurrences := pairs.count p })
  applyLimit limit (List.insertionSort occRel grouped)

/-- Output row of query 3. -/
structure TopPlayerEntry where
  player_name : String
  avg_rating : Option Rat
  max_rating : Option Int
  height : Option Int
  weight : Option Int
  preferred_foot : Option String
deriving DecidableEq

/-- Store average of nullable integers: nulls are ignored; null when no
value is present. -/
def mAvg (l : List (Option Int)) : Option Rat :=
  let v := l.filterMap id
  if v.isEmpty then none else some (mkRat v.sum v.length)

/-- Store maximum of nullable integers: nulls are ignored; null when no
value is present. -/
def mMax (l : List (Option Int)) : Option Int :=
  (l.filterMap id).foldl
    (fun acc x =>
      match acc with
      | none => some x
      | some m => some (max m x))
    none

/-- Round the fraction num/den (den positive) to the nearest integer,
half to even, as the store's rounding does. -/
def roundHalfEvenDiv (num : Int) (den : Nat) : Int :=
  let f := num.ediv den
  let r := num.emod den
  if 2 * r < (den : Int) then f
  else if (den : Int) < 2 * r then f + 1
  else if f % 2 = 0 then f else f + 1

/-- Round a rational to one decimal place, half to even. -/
def round1 (q : Rat) : Rat := mkRat (roundHalfEvenDiv (q.num * 10) q.den) 10

/-- The unwound player-snapshot join of queries 3 and 5: each player
paired with each of their snapshots, in collection order.  A player with
no snapshot produces nothing. -/
def unwoundPlayers (db : DB) : List (Player × PlayerAttribute) :=
  db.players.flatMap (fun p =>
    (db.player_attributes.filter
        (fun a => a.player_api_id == p.player_api_id)).map
      (fun a => (p, a)))

/-- The group stage of query 3 for one player identifier over the
unwound stream. -/
def topEntryFor (stream : List (Player × PlayerAttribute)) (i : Int) :
    TopPlayerEntry :=
  let docs := stream.filter (fun x => x.1.player_api_id == i)
  { player_name := (docs.head?.map (fun x => x.1.player_name)).getD "",
    avg_rating := (mAvg (docs.map (fun x => x.2.overall_rating))).map round1,
    max_rating := mMax (docs.map (fun x => x.2.overall_rating)),
    height := (docs.head?.map (fun x => x.1.height)).getD none,
    weight := (docs.head?.map (fun x => x.1.weight)).getD none,
    preferred_foot := (docs.head?.map (fun x => x.2.preferred_foot)).getD none }

/-- Store ordering on nullable rationals: a null sorts below every
number. -/
def mLeQ : Option Rat → Option Rat → Bool
  | none, _ => true
  | some _, none => false
  | some a, some b => decide (a ≤ b)

/-- Sort relation of query 3: descending average rating. -/
def avgRel (x y : TopPlayerEntry) : Prop :=
  mLeQ y.avg_rating x.avg_rating = true

instance : DecidableRel avgRel := fun x y =>
  inferInstanceAs (Decidable (_ = true))

/-- Query 3: top players by average rating.  The source builds a league
filter from `league_name` but never applies it to any stage, so the
parameter has no effect on the result; players without any snapshot are
dropped by the unwind stage. -/
def query_3_top_players_by_rating (db : DB) (league_name : Option String)
    (limit : Int) : Except QueryError (List TopPlayerEntry) :=
  let stream := unwoundPlayers db
  let ids := distinctFO (stream.map (fun x => x.1.player_api_id))
  let grouped := ids.map (topEntryFor stream)
  applyLimit limit (List.insertionSort avgRel grouped)

/-- Output row of query 5. -/
structure PlayerRatingPoint where
  player_name : String
  date : Option Int
  overall_rating : Option Int
  potential : Option Int
  finishing : Option Int
  short_passing : Option Int
  dribbling : Option Int
  sprint_speed : Option Int
  stamina : Option Int
  strength : Option Int
deriving DecidableEq

/-- Sort relation of query 5: ascending date under the store order. -/
def dateRel (x y : PlayerRatingPoint) : Prop :=
  (mLt x.date y.date || mEq x.date y.date) = true

instance : DecidableRel dateRel := fun x y =>
  inferInstanceAs (Decidable (_ = true))

/-- Query 5: a player's attribute snapshots over time.  The return type
is a plain list: a name matching no identity yields the empty list, with
no error path. -/
def query_5_player_attributes_over_time (db : DB) (player_name : String) :
    List PlayerRatingPoint :=
  let ps := db.players.filter (fun p => p.player_name == player_name)
  let rows := ps.flatMap (fun p =>
    (db.player_attributes.filter
        (fun a => a.player_api_id == p.player_api_id)).map
      (fun a =>
        { player_name := p.player_name, date := a.date,
          overall_rating := a.overall_rating, potential := a.potential,
          finishing := a.finishing, short_passing := a.short_passing,
          dribbling := a.dribbling, sprint_speed := a.sprint_speed,
          stamina := a.stamina, strength := a.strength }))
  List.insertionSort dateRel rows

/-- Perspective remap of the classifier, following the specification's
wording for the Record Aggregator: a home win is a win exactly for the
home side, an away win exactly for the away side, a draw for either
side; the `unknown` outcome is extended by the store's ordering, under
which an absent count sorts below every present count and two absent
counts compare equal. -/
def perspWin (team : String) (m : Match) : Bool :=
  match determine_result m.home_team_goal m.away_team_goal with
  | .home_win => m.home_team_name == team
  | .away_win => m.away_team_name == team
  | .draw => false
  | .unknown =>
    match m.home_team_goal, m.away_team_goal with
    | none, some _ => m.away_team_name == team
    | some _, none => m.home_team_name == team
    | _, _ => false

/-- Perspective remap of the classifier for losses; see `perspWin`. -/
def perspLoss (team : String) (m : Match) : Bool :=
  match determine_result m.home_team_goal m.away_team_goal with
  | .home_win => m.away_team_name == team
  | .away_win => m.home_team_name == team
  | .draw => false
  | .unknown =>
    match m.home_team_goal, m.away_team_goal with
    | none, some _ => m.home_team_name == team
    | some _, none => m.away_team_name == team
    | _, _ => false

/-- Perspective remap of the classifier for draws; a match whose two
goal counts are both absent also counts here, because the store compares
the two absent values as equal. -/
def perspDraw (m : Match) : Bool :=
  match determine_result m.home_team_goal m.away_team_goal with
  | .draw => true
  | .unknown =>
    match m.home_team_goal, m.away_team_goal with
    | none, none => true
    | _, _ => false
  | _ => false

/-- Descending lexicographic comparison on the specification's full
standings key (points, goal difference, goals scored). -/
def lexGe3 (x y : TeamSeasonRecord) : Bool :=
  decide (y.points < x.points) ||
    (decide (y.points = x.points) &&
      (decide (y.goal_difference < x.goal_difference) ||
        (decide (y.goal_difference = x.goal_difference) &&
          decide (y.goals_scored ≤ x.goals_scored))))

/-- Check that a standings sequence is non-increasing in the
specification's full key (points, goal difference, goals scored). -/
def nonIncr3 : List TeamSeasonRecord → Bool
  | [] => true
  | [_] => true
  | x :: y :: rest => lexGe3 x y && nonIncr3 (y :: rest)

/-- Exchange the two labelled sides of a head-to-head record. -/
def swapH2H (r : HeadToHeadRecord) : HeadToHeadRecord :=
  { team1 := r.team2, team2 := r.team1, total_matches := r.total_matches,
    team1_wins := r.team2_wins, team2_wins := r.team1_wins,
    draws := r.draws }

/-- Append one match document to the store. -/
def addMatch (db : DB) (m : Match) : DB :=
  { db with matches_ := db.matches_ ++ [m] }

/-- A store with no documents. -/
def dbEmpty : DB := ⟨[], [], []⟩

/-- One league-season match in which team B appears only as the away
side. -/
def dbC1 : DB := ⟨[⟨"L", "S", "A", "B", some 2, some 1⟩], [], []⟩

/-- A store whose only player has one snapshot and appears in no match:
the single match of league L is played by other teams and carries no
reference to any player. -/
def dbC2 : DB :=
  ⟨[⟨"L", "S", "A", "B", some 1, some 0⟩],
   [⟨1, "P", none, none⟩],
   [⟨1, some 0, some 80, none, none, none, none, none, none, none, none⟩]⟩

/-- The query-3 output row for the player of `dbC2`. -/
def pEntry : TopPlayerEntry := ⟨"P", some (mkRat 80 1), some 80, none, none, none⟩

/-- A store with one player identity named Empty holding no snapshot,
and no identity named Ghost. -/
def dbC3 : DB := ⟨[], [⟨1, "Empty", none, none⟩], []⟩

/-- Two drawn matches in one league-season: the two home sides end level
on points and goal difference but differ in goals scored, with the
lower-scoring side enumerated first. -/
def dbC4 : DB :=
  ⟨[⟨"L", "S", "Alpha", "Gamma", some 1, some 1⟩,
    ⟨"L", "S", "Beta", "Delta", some 2, some 2⟩], [], []⟩

/-- Three matches with scorelines (2,1), (2,1), (1,1). -/
def dbC6 : DB :=
  ⟨[⟨"L", "S", "A", "B", some 2, some 1⟩,
    ⟨"L", "S", "C", "D", some 2, some 1⟩,
    ⟨"L", "S", "E", "F", some 1, some 1⟩], [], []⟩

/-- One match of season S whose two goal counts are both absent. -/
def dbC7 : DB := ⟨[⟨"L", "S", "T", "U", none, none⟩], [], []⟩

/-- One match in which the same team name stands on both sides, with
unequal goals. -/
def dbSelf : DB := ⟨[⟨"L", "S", "X", "X", some 2, some 1⟩], [], []⟩

/-- The two-match scenario of the specification: A beats B 2-1 at home,
then draws 0-0 away, both in season 2020. -/
def dbScen : DB :=
  ⟨[⟨"L", "2020", "A", "B", some 2, some 1⟩,
    ⟨"L", "2020", "B", "A", some 0, some 0⟩], [], []⟩

/-- The record the scenario of the specification expects for team A. -/
def recScen : TeamSeasonRecord := ⟨"A", "2020", 2, 1, 1, 0, 2, 1, 1, 4, none⟩

/-- A qualifying season-2020 match for team A whose goal counts are both
absent. -/
def mNull : Match := ⟨"L", "2020", "A", "B", none, none⟩

/-- The head-to-head scenario of the specification: A beats B 3-0 at
home and draws 1-1 away. -/
def dbH2H : DB :=
  ⟨[⟨"L", "S", "A", "B", some 3, some 0⟩,
    ⟨"L", "S", "B", "A", some 1, some 1⟩], [], []⟩

/-! ## Helper lemmas -/

theorem countP_eq_of_forall {α : Type} (p q : α → Bool) :
    ∀ l : List α, (∀ a ∈ l, p a = q a) → l.countP p = l.countP q := by
  intro l h
  induction l with
  | nil => rfl
  | cons a t ih =>
    rw [List.countP_cons, List.countP_cons, h a (by simp),
      ih (fun b hb => h b (by simp [hb]))]

/-- Trichotomy of the store order on nullable integers: exactly one of
greater, equal, less holds. -/
theorem mtri (x y : Option Int) :
    (mGt x y).toNat + (mEq x y).toNat + (mLt x y).toNat = 1 := by
  cases x with
  | none => cases y <;> rfl
  | some a =>
    cases y with
    | none => rfl
    | some b =>
      simp only [mGt, mLt, mEq]
      cases hgt : decide (b < a) <;> cases heq : a == b <;>
        cases hlt : decide (a < b) <;> simp_all <;> omega

/-- Symmetry of the store equality. -/
theorem mEq_comm (x y : Option Int) : mEq x y = mEq y x := by
  cases x <;> cases y <;> simp [mEq, BEq.comm]

/-- Per-match case analysis for the Record Aggregator conditions: for a
match whose two side names differ and that involves the queried team,
the three tally conditions agree with the perspective remap of the
classifier and exactly one of them holds. -/
theorem cond_cases (team : String) (m : Match)
    (hside : (m.home_team_name == team || m.away_team_name == team) = true)
    (hne : m.home_team_name ≠ m.away_team_name) :
    winCond team m = perspWin team m ∧
    drawCond m = perspDraw m ∧
    lossCond team m = perspLoss team m ∧
    (winCond team m).toNat + (drawCond m).toNat + (lossCond team m).toNat = 1 := by
  have hsides : (m.home_team_name == team) = true ∧ (m.away_team_name == team) = false ∨
      (m.home_team_name == team) = false ∧ (m.away_team_name == team) = true := by
    rcases Bool.or_eq_true_iff.mp hside with hh | ha
    · exact Or.inl ⟨hh, by
        simp only [beq_eq_false_iff_ne, ne_eq]
        intro he
        exact hne ((beq_iff_eq.mp hh).trans he.symm)⟩
    · exact Or.inr ⟨by
        simp only [beq_eq_false_iff_ne, ne_eq]
        intro he
        exact hne (he.trans (beq_iff_eq.mp ha).symm), ha⟩
  rcases hsides with ⟨hh, ha⟩ | ⟨hh, ha⟩ <;>
    cases hg : m.home_team_goal <;> cases ag : m.away_team_goal <;>
      simp only [winCond, drawCond, lossCond, perspWin, perspDraw, perspLoss,
        hg, ag, hh, ha, mGt, mLt, mEq, Bool.true_and,
        Bool.false_and, Bool.or_false, Bool.false_or, Bool.and_true,
        Bool.and_false]
  all_goals try simp [determine_result]
  all_goals rename_i hv av
  all_goals rcases lt_trichotomy hv av with hab | hab | hab
  all_goals try
    (rw [if_neg (show ¬av < hv by omega), if_pos hab]
     have h1 : ¬av < hv := by omega
     have h2 : hv ≠ av := by omega
     simp [hab, h1, h2])
  all_goals try
    (rw [if_neg (show ¬av < hv by omega), if_neg (show ¬hv < av by omega)]
     simp [hab])
  all_goals
    rw [if_pos hab]
    have h1 : ¬hv < av := by omega
    have h2 : hv ≠ av := by omega
    simp [hab, h1, h2]

/-- A list of matches that all involve the queried team and never name
the same team on both sides splits its length into the three tallies. -/
theorem length_eq_tally (team : String) :
    ∀ l : List Match,
      (∀ m ∈ l, (m.home_team_name == team || m.away_team_name == team) = true ∧
        m.home_team_name ≠ m.away_team_name) →
      l.length = l.countP (winCond team) + l.countP drawCond +
        l.countP (lossCond team) := by
  intro l h
  induction l with
  | nil => rfl
  | cons a t ih =>
    have ha := h a (by simp)
    have h4 := (cond_cases team a ha.1 ha.2).2.2.2
    rw [List.length_cons, List.countP_cons, List.countP_cons, List.countP_cons,
      ih (fun b hb => h b (by simp [hb]))]
    cases hw : winCond team a <;> cases hd : drawCond a <;>
      cases hl : lossCond team a <;> simp [hw, hd, hl] at h4 ⊢ <;> omega

/-- Unpacking the query-2 match filter: a qualifying match involves the
team on some side and belongs to the season. -/
theorem involves_side {team season : String} {m : Match}
    (h : matchInvolves team season m = true) :
    (m.home_team_name == team || m.away_team_name == team) = true ∧
      m.season = season := by
  simp only [matchInvolves, Bool.and_eq_true] at h
  exact ⟨h.2, beq_iff_eq.mp h.1⟩

/-- Tally equivalence: over matches that involve the team and never name
the same team on both sides, the three implementation tallies equal the
perspective-remapped classifier tallies. -/
theorem countP_persp (team : String) (l : List Match)
    (h : ∀ m ∈ l, (m.home_team_name == team || m.away_team_name == team) = true ∧
      m.home_team_name ≠ m.away_team_name) :
    l.countP (winCond team) = l.countP (perspWin team) ∧
    l.countP drawCond = l.countP perspDraw ∧
    l.countP (lossCond team) = l.countP (perspLoss team) :=
  ⟨countP_eq_of_forall _ _ l (fun m hm => (cond_cases team m (h m hm).1 (h m hm).2).1),
   countP_eq_of_forall _ _ l (fun m hm => (cond_cases team m (h m hm).1 (h m hm).2).2.1),
   countP_eq_of_forall _ _ l (fun m hm => (cond_cases team m (h m hm).1 (h m hm).2).2.2.1)⟩

/-- The three invariants of a query-2 record; the decomposition of
matches played into the three tallies additionally needs that no
qualifying match names the same team on both sides. -/
theorem query_2_invariants (db : DB) (team season : String)
    (r : TeamSeasonRecord)
    (h : query_2_team_season_record db team season = some r) :
    r.goal_difference = r.goals_scored - r.goals_conceded ∧
    r.points = 3 * (r.wins : Int) + (r.draws : Int) ∧
    ((∀ m ∈ db.matches_, matchInvolves team season m = true →
        m.home_team_name ≠ m.away_team_name) →
      r.matches_played = r.wins + r.draws + r.losses) := by
  simp only [query_2_team_season_record] at h
  split at h
  · cases h
  · injection h with h
    subst h
    refine ⟨rfl, rfl, ?_⟩
    intro hne
    apply length_eq_tally
    intro m hm
    have hmem := List.mem_filter.mp hm
    exact ⟨(involves_side hmem.2).1, hne m hmem.1 hmem.2⟩

/-- Per-match exclusivity for the head-to-head tallies: each qualifying
match (with the two names distinct) contributes to exactly one of the
two win counts and the draw count. -/
theorem h2h_tally (t1 t2 : String) (hne : t1 ≠ t2) :
    ∀ l : List Match, (∀ m ∈ l, h2hFilter t1 t2 m = true) →
      l.length = l.countP (winCond t1) + l.countP (winCond t2) +
        l.countP drawCond := by
  intro l h
  induction l with
  | nil => rfl
  | cons a t ih =>
    have ha := h a (by simp)
    have h1 : (winCond t1 a).toNat + (winCond t2 a).toNat + (drawCond a).toNat = 1 := by
      have htri := mtri a.home_team_goal a.away_team_goal
      rcases Bool.or_eq_true_iff.mp ha with hc | hc
      · have hh := (Bool.and_eq_true_iff.mp hc).1
        have haw := (Bool.and_eq_true_iff.mp hc).2
        have hh2 : (a.home_team_name == t2) = false := by
          simp only [beq_eq_false_iff_ne, ne_eq]
          intro he
          exact hne ((beq_iff_eq.mp hh).symm.trans he)
        have haw1 : (a.away_team_name == t1) = false := by
          simp only [beq_eq_false_iff_ne, ne_eq]
          intro he
          exact hne (he.symm.trans (beq_iff_eq.mp haw))
        simp only [winCond, drawCond, hh, haw, hh2, haw1, Bool.true_and,
          Bool.false_and, Bool.or_false, Bool.false_or, mGt] at htri ⊢
        omega
      · have hh := (Bool.and_eq_true_iff.mp hc).1
        have haw := (Bool.and_eq_true_iff.mp hc).2
        have hh1 : (a.home_team_name == t1) = false := by
          simp only [beq_eq_false_iff_ne, ne_eq]
          intro he
          exact hne (he.symm.trans (beq_iff_eq.mp hh))
        have haw2 : (a.away_team_name == t2) = false := by
          simp only [beq_eq_false_iff_ne, ne_eq]
          intro he
          exact hne ((beq_iff_eq.mp haw).symm.trans he)
        simp only [winCond, drawCond, hh, haw, hh1, haw2, Bool.true_and,
          Bool.false_and, Bool.or_false, Bool.false_or, mGt] at htri ⊢
        omega
    rw [List.length_cons, List.countP_cons, List.countP_cons, List.countP_cons,
      ih (fun b hb => h b (by simp [hb]))]
    cases hw1 : winCond t1 a <;> cases hw2 : winCond t2 a <;>
      cases hd : drawCond a <;> simp [hw1, hw2, hd] at h1 ⊢ <;> omega

/-- Every element of a position-assigned list is one of the underlying
records with some position written into it. -/
theorem mem_assignPositions {b : TeamSeasonRecord} :
    ∀ (i : Nat) (l : List TeamSeasonRecord), b ∈ assignPositions i l →
      ∃ r ∈ l, ∃ j, b = setPos r (some j) := by
  intro i l
  induction l generalizing i with
  | nil => intro h; cases h
  | cons a t ih =>
    intro h
    rcases List.mem_cons.mp h with he | ht
    · exact ⟨a, List.mem_cons_self a t, i, he⟩
    · rcases ih (i + 1) ht with ⟨r, hr, j, hb⟩
      exact ⟨r, List.mem_cons_of_mem a hr, j, hb⟩

/-- Assigning positions preserves sortedness by the standings key, which
does not read the position field. -/
theorem pairwise_assignPositions :
    ∀ (i : Nat) (l : List TeamSeasonRecord), l.Pairwise stRel →
      (assignPositions i l).Pairwise stRel := by
  intro i l
  induction l generalizing i with
  | nil => intro _; exact List.Pairwise.nil
  | cons a t ih =>
    intro h
    rcases List.pairwise_cons.mp h with ⟨ha, ht⟩
    refine List.pairwise_cons.mpr ⟨?_, ih (i + 1) ht⟩
    intro b hb
    rcases mem_assignPositions (i + 1) t hb with ⟨r, hr, j, hbj⟩
    rw [hbj]
    exact ha r hr

/-- The positions assigned from index i are i, i+1, ... in order. -/
theorem map_position_assignPositions :
    ∀ (i : Nat) (l : List TeamSeasonRecord),
      (assignPositions i l).map (fun r => r.position) =
        (List.range l.length).map (fun k => some (i + k)) := by
  intro i l
  induction l generalizing i with
  | nil => rfl
  | cons a t ih =>
    simp only [assignPositions, List.map_cons, List.length_cons,
      List.range_succ_eq_map, List.map_map, ih (i + 1)]
    refine congrArg (some i :: ·) ?_
    exact List.map_congr_left (fun a _ => congrArg some (by omega))

theorem length_assignPositions :
    ∀ (i : Nat) (l : List TeamSeasonRecord),
      (assignPositions i l).length = l.length := by
  intro i l
  induction l generalizing i with
  | nil => rfl
  | cons a t ih => simp [assignPositions, ih (i + 1)]

/-! ## Claim theorems -/

/-- C1: the Standings Builder is claimed to enumerate the team set as
the union of home-side and away-side names, so that a team appearing
only as the away side still receives a row.  The source takes the
distinct home-side names only: in a league-season whose single match is
A 2-1 B, team B appears as an away side yet receives no standings
row. -/
theorem c1_away_only_team_dropped :
    (query_8_league_standings dbC1 "L" "S").map (fun r => r.team) = ["A"] ∧
    dbC1.matches_.map (fun m => m.away_team_name) = ["B"] ∧
    "B" ∉ (query_8_league_standings dbC1 "L" "S").map (fun r => r.team) := by
  decide

/-- C2: the Top-Player Ranker is claimed to restrict to players who
appeared in a match of the filtered league.  The source builds a league
filter but never applies it to any pipeline stage, so the result is
independent of the league argument; on `dbC2` the league-L query returns
player P, who has a snapshot but no appearance in any match. -/
theorem c2_league_filter_ignored :
    (∀ (db : DB) (lg : Option String) (lim : Int),
        query_3_top_players_by_rating db lg lim =
          query_3_top_players_by_rating db none lim) ∧
    query_3_top_players_by_rating dbC2 (some "L") 10 = .ok [pEntry] :=
  ⟨fun _ _ _ => rfl, by decide⟩

/-- C3 counterexample: the Rating Time-Series Builder is claimed to
signal NotFound exactly when the player name resolves to no identity.
The source returns a plain list with no error path: on `dbC3` the
unresolved name Ghost yields the ordinary empty list, indistinguishable
from the resolved identity Empty that has zero snapshots. -/
theorem c3_no_notfound_signal :
    query_5_player_attributes_over_time dbC3 "Ghost" = [] ∧
    dbC3.players.all (fun p => p.player_name != "Ghost") = true ∧
    query_5_player_attributes_over_time dbC3 "Empty" = [] ∧
    dbC3.players.any (fun p => p.player_name == "Empty") = true := by
  decide

/-- C3 amended: the builder never signals NotFound; whenever no snapshot
belongs to an identity carrying the queried name — in particular when
the name resolves to no identity at all — it returns the empty
sequence. -/
theorem c3_unresolved_name_yields_empty (db : DB) (nm : String)
    (h : ∀ p ∈ db.players, p.player_name = nm →
      db.player_attributes.filter (fun a => a.player_api_id == p.player_api_id) = []) :
    query_5_player_attributes_over_time db nm = [] := by
  simp only [query_5_player_attributes_over_time]
  have hrows : (db.players.filter (fun p => p.player_name == nm)).flatMap
      (fun p => (db.player_attributes.filter
          (fun a => a.player_api_id == p.player_api_id)).map
        (fun a =>
          ({ player_name := p.player_name, date := a.date,
             overall_rating := a.overall_rating, potential := a.potential,
             finishing := a.finishing, short_passing := a.short_passing,
             dribbling := a.dribbling, sprint_speed := a.sprint_speed,
             stamina := a.stamina, strength := a.strength } :
            PlayerRatingPoint))) = [] := by
    rw [List.flatMap_eq_nil_iff]
    intro p hp
    have hmem := List.mem_filter.mp hp
    rw [h p hmem.1 (beq_iff_eq.mp hmem.2)]
    rfl
  rw [hrows]
  rfl

theorem c3_witness : query_5_player_attributes_over_time dbC3 "Ghost" = [] :=
  c3_unresolved_name_yields_empty dbC3 "Ghost" (by decide)

/-- C4 counterexample: the source sorts only by (points, goal
difference) and keeps ties in team-enumeration order, so two teams
level on points and goal difference can appear with goals scored
increasing: the output is not non-increasing in the claimed triple key
(points, goal difference, goals scored). -/
theorem c4_missing_third_key :
    nonIncr3 (query_8_league_standings dbC4 "L" "S") = false ∧
    (query_8_league_standings dbC4 "L" "S").map
      (fun r => (r.points, r.goal_difference, r.goals_scored, r.position)) =
      [(1, 0, 1, some 1), (1, 0, 2, some 2)] := by
  decide

/-- C4 amended: the standings are non-increasing in the two-component
key (points, goal difference) — ties beyond that stay in enumeration
order — and the position values are exactly 1, 2, ... in output
order. -/
theorem c4_sorted_two_keys_positions (db : DB) (league season : String) :
    (query_8_league_standings db league season).Pairwise stRel ∧
    (query_8_league_standings db league season).map (fun r => r.position) =
      (List.range (query_8_league_standings db league season).length).map
        (fun k => some (k + 1)) := by
  unfold query_8_league_standings
  constructor
  · exact pairwise_assignPositions 1 _ (List.sorted_insertionSort stRel _)
  · rw [map_position_assignPositions, length_assignPositions,
      List.length_insertionSort]
    exact List.map_congr_left (fun a _ => congrArg some (by omega))

/-- C5: a non-positive limit makes the Top-Player Ranker fail with an
invalid-argument error rather than clamp the limit or return a result;
the error surfaces from the store's rejection of a non-positive
result-limiting stage. -/
theorem c5_limit_nonpositive_errors (db : DB) (lg : Option String)
    (limit : Int) (h : limit ≤ 0) :
    query_3_top_players_by_rating db lg limit = .error .invalidArgument := by
  unfold query_3_top_players_by_rating applyLimit
  simp [h]

theorem c5_witness :
    query_3_top_players_by_rating dbEmpty none 0 = .error .invalidArgument :=
  c5_limit_nonpositive_errors dbEmpty none 0 (by decide)

/-- C6 counterexample: over the scorelines (2,1), (2,1), (1,1) with
limit 2 the counter does rank (2,1) with two occurrences first, but each
scoreline string is rendered with a spaced separator, "2 - 1", not the
claimed "2-1". -/
theorem c6_spaced_scoreline :
    query_6_common_scorelines dbC6 2 =
      .ok [⟨some "2 - 1", some 2, some 1, 2⟩,
           ⟨some "1 - 1", some 1, some 1, 1⟩] ∧
    (some "2 - 1" : Option String) ≠ some "2-1" := by
  decide

/-- C6 amended: the scenario as the source renders it — descending by
occurrence count, truncated to the limit, with each scoreline string
built from the home goals, the spaced separator " - ", and the away
goals. -/
theorem c6_scenario_output :
    query_6_common_scorelines dbC6 2 =
      .ok [{ scoreline := scorelineStr (some 2) (some 1),
             home_goals := some 2, away_goals := some 1, occurrences := 2 },
           { scoreline := scorelineStr (some 1) (some 1),
             home_goals := some 1, away_goals := some 1, occurrences := 1 }] := by
  decide

/-- C7 counterexample: a qualifying match with both goal counts absent
is classified `unknown`, yet it increments the draw tally (and hence the
points) of the Record Aggregator, so an unknown match does not
contribute to no tally. -/
theorem c7_unknown_match_tallied :
    determine_result none none = MatchResult.unknown ∧
    (query_2_team_season_record dbC7 "T" "S").map
      (fun r => (r.wins, r.draws, r.losses, r.points)) = some (0, 1, 0, 1) := by
  decide

/-- C8 counterexample: on a match naming the same team on both sides
with unequal goals, the record counts one match but one win and one
loss, so matches_played differs from wins+draws+losses. -/
theorem c8_selfmatch_breaks_sum :
    (query_2_team_season_record dbSelf "X" "S").map
      (fun r => (r.matches_played, r.wins, r.draws, r.losses)) =
        some (1, 1, 0, 1) ∧
    (query_2_team_season_record dbSelf "X" "S").map
      (fun r => r.matches_played == r.wins + r.draws + r.losses) = some false := by
  decide

/-- C9 counterexample: with both input names equal and a stored match
naming that team on both sides, the head-to-head tallies sum to 2 on a
single match, violating team1_wins + team2_wins + draws =
total_matches. -/
theorem c9_selfpair_breaks_sum :
    (query_9_head_to_head dbSelf "X" "X").map
      (fun r => (r.team1_wins + r.team2_wins + r.draws, r.total_matches)) =
        some (2, 1) ∧
    (query_9_head_to_head dbSelf "X" "X").map
      (fun r => r.team1_wins + r.team2_wins + r.draws == r.total_matches) =
        some false := by
  decide

/-- C7 amended: over qualifying matches that never name the same team
on both sides, the Record Aggregator's tallies equal the per-match
perspective remap of the Result Classifier, extended to absent goal
counts by the store order — a match with both counts absent counts as a
draw, a match with exactly one count absent counts as a win for the
side whose count is present — and the specification's two-match
scenario yields the expected record for team A. -/
theorem c7_record_tallies :
    (∀ (db : DB) (team season : String) (r : TeamSeasonRecord),
        (∀ m ∈ db.matches_, matchInvolves team season m = true →
          m.home_team_name ≠ m.away_team_name) →
        query_2_team_season_record db team season = some r →
        r.wins = (db.matches_.filter (matchInvolves team season)).countP
          (perspWin team) ∧
        r.draws = (db.matches_.filter (matchInvolves team season)).countP
          perspDraw ∧
        r.losses = (db.matches_.filter (matchInvolves team season)).countP
          (perspLoss team)) ∧
    query_2_team_season_record dbScen "A" "2020" = some recScen := by
  constructor
  · intro db team season r hne h
    simp only [query_2_team_season_record] at h
    split at h
    · cases h
    · injection h with h
      subst h
      have hforall : ∀ m ∈ db.matches_.filter (matchInvolves team season),
          (m.home_team_name == team || m.away_team_name == team) = true ∧
            m.home_team_name ≠ m.away_team_name := by
        intro m hm
        have hmem := List.mem_filter.mp hm
        exact ⟨(involves_side hmem.2).1, hne m hmem.1 hmem.2⟩
      have hc := countP_persp team _ hforall
      exact ⟨hc.1, hc.2.1, hc.2.2⟩
  · decide

theorem c7_witness :
    recScen.wins = (dbScen.matches_.filter (matchInvolves "A" "2020")).countP
      (perspWin "A") ∧
    recScen.draws = (dbScen.matches_.filter (matchInvolves "A" "2020")).countP
      perspDraw ∧
    recScen.losses = (dbScen.matches_.filter (matchInvolves "A" "2020")).countP
      (perspLoss "A") :=
  c7_record_tallies.1 dbScen "A" "2020" recScen (by decide) (by decide)

/-- C8 amended: for every Record Aggregator output and every Standings
Builder row, goal difference and points satisfy their defining
identities unconditionally; matches played equals wins+draws+losses
provided no qualifying match names the same team on both sides. -/
theorem c8_record_invariants :
    (∀ (db : DB) (team season : String) (r : TeamSeasonRecord),
        query_2_team_season_record db team season = some r →
        r.goal_difference = r.goals_scored - r.goals_conceded ∧
        r.points = 3 * (r.wins : Int) + (r.draws : Int) ∧
        ((∀ m ∈ db.matches_, matchInvolves team season m = true →
            m.home_team_name ≠ m.away_team_name) →
          r.matches_played = r.wins + r.draws + r.losses)) ∧
    (∀ (db : DB) (league season : String) (r : TeamSeasonRecord),
        r ∈ query_8_league_standings db league season →
        r.goal_difference = r.goals_scored - r.goals_conceded ∧
        r.points = 3 * (r.wins : Int) + (r.draws : Int) ∧
        ((∀ m ∈ db.matches_, m.season = season →
            m.home_team_name ≠ m.away_team_name) →
          r.matches_played = r.wins + r.draws + r.losses)) := by
  constructor
  · exact fun db team season r h => query_2_invariants db team season r h
  · intro db league season r h
    simp only [query_8_league_standings] at h
    rcases mem_assignPositions 1 _ h with ⟨r0, hr0, j, hrj⟩
    have hbase := (List.mem_insertionSort stRel).mp hr0
    rcases List.mem_filterMap.mp hbase with ⟨t, _, hq2⟩
    have hA := query_2_invariants db t season r0 hq2
    rw [hrj]
    refine ⟨hA.1, hA.2.1, ?_⟩
    intro hne
    exact hA.2.2 (fun m hm hinv => hne m hm (involves_side hinv).2)

theorem c8_witness :
    recScen.goal_difference = recScen.goals_scored - recScen.goals_conceded ∧
    recScen.points = 3 * (recScen.wins : Int) + (recScen.draws : Int) ∧
    recScen.matches_played = recScen.wins + recScen.draws + recScen.losses := by
  have h := c8_record_invariants.1 dbScen "A" "2020" recScen (by decide)
  exact ⟨h.1, h.2.1, h.2.2 (by decide)⟩

/-- C9 amended: for distinct team names the head-to-head tallies sum to
the number of qualifying matches, and for every pair of names swapping
the inputs exchanges the two win counts while leaving draws and the
match total unchanged. -/
theorem c9_sum_and_swap (db : DB) (t1 t2 : String) :
    (t1 ≠ t2 → ∀ r, query_9_head_to_head db t1 t2 = some r →
        r.team1_wins + r.team2_wins + r.draws = r.total_matches) ∧
    query_9_head_to_head db t2 t1 =
      (query_9_head_to_head db t1 t2).map swapH2H := by
  constructor
  · intro hne r h
    simp only [query_9_head_to_head] at h
    split at h
    · cases h
    · injection h with h
      subst h
      exact (h2h_tally t1 t2 hne _
        (fun m hm => (List.mem_filter.mp hm).2)).symm
  · have hf : db.matches_.filter (h2hFilter t2 t1) =
        db.matches_.filter (h2hFilter t1 t2) := by
      apply List.filter_congr
      intro m _
      simp [h2hFilter, Bool.or_comm]
    simp only [query_9_head_to_head, hf]
    split
    · rfl
    · rfl

theorem c9_witness :
    query_9_head_to_head dbH2H "A" "B" = some ⟨"A", "B", 2, 1, 0, 1⟩ ∧
    query_9_head_to_head dbH2H "B" "A" =
      (query_9_head_to_head dbH2H "A" "B").map swapH2H ∧
    (1 : Nat) + 0 + 1 = 2 := by
  have h := c9_sum_and_swap dbH2H "A" "B"
  refine ⟨by decide, h.2, ?_⟩
  exact h.1 (by decide) ⟨"A", "B", 2, 1, 0, 1⟩ (by decide)

/-- C10: a qualifying match whose two goal counts are both absent is
classified `unknown` by the Result Classifier, yet appending it to the
store increments the Record Aggregator's draw tally and points by
exactly one, because the draw tally compares the two stored goal fields
directly and the store compares two absent values as equal. -/
theorem c10_both_null_counts_as_draw (db : DB) (team season : String) (m : Match)
    (h1 : matchInvolves team season m = true)
    (h2 : m.home_team_goal = none) (h3 : m.away_team_goal = none) :
    determine_result m.home_team_goal m.away_team_goal = MatchResult.unknown ∧
    (query_2_team_season_record (addMatch db m) team season).map (fun r => r.draws) =
      some ((query_2_team_season_record db team season).elim 0 (fun r => r.draws) + 1) ∧
    (query_2_team_season_record (addMatch db m) team season).map (fun r => r.points) =
      some ((query_2_team_season_record db team season).elim 0 (fun r => r.points) + 1) := by
  have hq : (addMatch db m).matches_.filter (matchInvolves team season) =
      db.matches_.filter (matchInvolves team season) ++ [m] := by
    simp [addMatch, List.filter_append, h1]
  have hd : drawCond m = true := by simp [drawCond, h2, h3, mEq]
  have hw : winCond team m = false := by simp [winCond, h2, h3, mGt, mLt]
  refine ⟨by rw [h2, h3]; rfl, ?_, ?_⟩ <;>
  · unfold query_2_team_season_record
    rw [hq]
    rcases hbase : db.matches_.filter (matchInvolves team season) with _ | ⟨b, bs⟩ <;>
      simp [List.countP_append, List.countP_cons, hd, hw] <;> omega

theorem c10_witness :
    determine_result mNull.home_team_goal mNull.away_team_goal = MatchResult.unknown ∧
    (query_2_team_season_record (addMatch dbScen mNull) "A" "2020").map
      (fun r => r.draws) =
      some ((query_2_team_season_record dbScen "A" "2020").elim 0
        (fun r => r.draws) + 1) ∧
    (query_2_team_season_record (addMatch dbScen mNull) "A" "2020").map
      (fun r => r.points) =
      some ((query_2_team_season_record dbScen "A" "2020").elim 0
        (fun r => r.points) + 1) :=
  c10_both_null_counts_as_draw dbScen "A" "2020" mNull (by decide) rfl rfl

end Soccer
